import Mathlib

/-
Shallow embedding of src/stomp_plugins/src/cost_functions/tool_goal_pose.cpp
(stomp_moveit::cost_functions::ToolGoalPose).

Conventions: C++ doubles are modelled as exact rationals (ℚ); Eigen vectors of
size CARTESIAN_DOF_SIZE as functions Fin 6 → ℚ; the trajectory matrix as the
list of its columns (one column per timestep).  The repository's kinematics
utilities (utils::kinematics, MoveIt robot state) are not under src/ and are
carried as abstract functions in a `Kinematics` record.
-/

namespace StompMoveit

/-- A six-component twist/tolerance vector (an `Eigen::VectorXd` of size
`CARTESIAN_DOF_SIZE`), with doubles modelled as exact rationals. -/
abbrev Vec6 := Fin 6 → ℚ

/-- One joint configuration: a single column of the trajectory matrix. -/
abbrev JointVec := List ℚ

/-- The trajectory matrix `Eigen::MatrixXd parameters`, stored as its list of
columns (one column per timestep): `cols()` is the list length and
`rightCols(1)` the last element. -/
abbrev Traj := List JointVec

/-- An `Eigen::Affine3d` pose, abstracted as a list of numeric entries (the
model never inspects a pose except through the abstract kinematics maps). -/
abbrev Pose := List ℚ

/-- Line 34: `static const int CARTESIAN_DOF_SIZE = 6`. -/
def CARTESIAN_DOF_SIZE : ℕ := 6

/-- Line 35: `static const double DEFAULT_POS_TOLERANCE = 0.001`. -/
def DEFAULT_POS_TOLERANCE : ℚ := 1/1000

/-- Line 36: `static const double DEFAULT_ROT_TOLERANCE = 0.01`. -/
def DEFAULT_ROT_TOLERANCE : ℚ := 1/100

/-- Line 37: `static const double POS_MAX_ERROR_RATIO = 10.0`. -/
def POS_MAX_ERROR_RATIO : ℚ := 10

/-- Line 38: `static const double ROT_MAX_ERROR_RATIO = 10.0`. -/
def ROT_MAX_ERROR_RATIO : ℚ := 10

/-- `M_PI`: the IEEE-754 double nearest π, as an exact rational
(884279719003555 · 2⁻⁴⁸). -/
def M_PI : ℚ := 884279719003555 / 281474976710656

/-- `moveit_msgs::JointConstraint`: the fields the cost function reads
(lines 143-149). -/
structure JointConstraint where
  joint_name : String
  position : ℚ

/-- `moveit_msgs::Constraints`: one goal constraint of the request.  The
cartesian part is abstract data (it is only ever handed to the kinematics
utilities); the joint part is the list the source iterates over. -/
structure Constraints where
  cartesian_data : List ℚ
  joint_constraints : List JointConstraint

/-- `moveit_msgs::MotionPlanRequest`: the field the cost function reads
(line 105); the start state is absorbed into `Kinematics.startToolPose`. -/
structure MotionPlanRequest where
  goal_constraints : List Constraints

/-- `moveit_msgs::MoveItErrorCodes::val` values this file mentions. -/
inductive MoveItErrorCode
  | SUCCESS
  | INVALID_GOAL_CONSTRAINTS
  | other (v : ℤ)
deriving DecidableEq

/-- The configured and mutable members of
`stomp_moveit::cost_functions::ToolGoalPose` that the modelled member
functions read or write. -/
structure GoalState where
  position_cost_weight : ℚ
  orientation_cost_weight : ℚ
  cost_weight : ℚ
  tool_goal_pose : Pose
  tool_goal_tolerance : Vec6
  min_twist_error : Vec6
  max_twist_error : Vec6
  last_joint_pose : JointVec
  last_tool_pose : Pose
  tool_twist_error : Vec6

/-- Modelled from the spec: the repository's kinematics utilities
(`utils::kinematics` and the MoveIt robot state used through `state_`) are not
under `src/`; the spec treats "robot kinematics and collision queries,
goal/constraint parsing from planning requests" as external collaborators
"specified only at their interface boundary", so they are carried here as
abstract functions.  No claim depends on their internals. -/
structure Kinematics where
  /-- `utils::kinematics::validateCartesianConstraints(g)` (line 118). -/
  validateCartesianConstraints : Constraints → Bool
  /-- `constructCartesianConstraints` followed by `decodeCartesianConstraint`
  (lines 123-125): from the goal constraints and the start tool pose, the
  found flag, the decoded goal pose and the decoded tolerance vector. -/
  decodeCartesianGoal : Constraints → Pose → Bool × Pose × Vec6
  /-- `state_->getGlobalLinkTransform(tool_link_)` after copying the goal's
  joint-constraint values into the state (lines 146-153). -/
  fkFromJointConstraints : List JointConstraint → Pose
  /-- `state_->getGlobalLinkTransform(tool_link_)` at the request's start
  state (line 122). -/
  startToolPose : Pose
  /-- `state_->setJointGroupPositions` followed by
  `state_->getGlobalLinkTransform(tool_link_)` (lines 197-198): the tool pose
  at a joint configuration. -/
  fkTool : JointVec → Pose
  /-- `utils::kinematics::computeTwist(pose, goal, ones(6), out)` (line 202):
  the twist error between a tool pose and the goal pose. -/
  computeTwist : Pose → Pose → Vec6

/-- `XmlRpcValue` `operator[]` plus the cast to double on one named
parameter: either the numeric value, or an `XmlRpcException` (missing entry,
non-numeric value). -/
inductive XmlRpcRead
  | ok (value : ℚ)
  | exn (message : String)

/-- The `XmlRpcValue` config, abstracted as what reading each parameter name
yields. -/
abbrev XmlRpcConfig := String → XmlRpcRead

/-- `ToolGoalPose::configure` (lines 67-89): reads the two cost weights,
stores their sum in `cost_weight_`; an `XmlRpcException` thrown while reading
is caught and turned into a `false` return (members already assigned keep
their new values, as in the source). -/
def configure (config : XmlRpcConfig) (s : GoalState) : GoalState × Bool :=
  match config "position_cost_weight" with
  | XmlRpcRead.exn _ => (s, false)
  | XmlRpcRead.ok p =>
    let s := { s with position_cost_weight := p }
    match config "orientation_cost_weight" with
    | XmlRpcRead.exn _ => (s, false)
    | XmlRpcRead.ok o =>
      let s := { s with orientation_cost_weight := o }
      ({ s with cost_weight := s.position_cost_weight + s.orientation_cost_weight }, true)

/-- Lines 163-167: the cartesian error range derived from the goal tolerance:
`min_twist_error_ = tool_goal_tolerance_`; the first three components of
`max_twist_error_` are `min · POS_MAX_ERROR_RATIO`, the last three are
`min · ROT_MAX_ERROR_RATIO` capped at `M_PI`. -/
def computeErrorRange (s : GoalState) : GoalState :=
  let mn := s.tool_goal_tolerance
  let mx : Vec6 := fun i =>
    if (i : ℕ) < 3 then mn i * POS_MAX_ERROR_RATIO
    else
      let v := mn i * ROT_MAX_ERROR_RATIO
      if v > M_PI then M_PI else v
  { s with min_twist_error := mn, max_twist_error := mx }

/-- `ToolGoalPose::setMotionPlanRequest` (lines 91-170).  The source's loop
over `req.goal_constraints` either returns or breaks during its first
iteration (the cartesian branch breaks, and `found_goal` is still false in
the alternative branch, which returns or breaks), so only the first goal
constraint is ever examined.  In the cartesian branch the decoded tolerance
is a local variable and `tool_goal_tolerance_` keeps its previous value, as
in the source.  Returns the updated state, the `error_code.val` output and
the return value. -/
def setMotionPlanRequest (ext : Kinematics) (s : GoalState)
    (req : MotionPlanRequest) (error_code : MoveItErrorCode) :
    GoalState × MoveItErrorCode × Bool :=
  match req.goal_constraints with
  | [] => (s, MoveItErrorCode.INVALID_GOAL_CONSTRAINTS, false)
  | g :: _ =>
    if ext.validateCartesianConstraints g then
      let start_tool_pose := ext.startToolPose
      let decoded := ext.decodeCartesianGoal g start_tool_pose
      let s := { s with tool_goal_pose := decoded.2.1 }
      (computeErrorRange s, error_code, true)
    else if g.joint_constraints.isEmpty then
      (s, MoveItErrorCode.INVALID_GOAL_CONSTRAINTS, false)
    else
      let pose := ext.fkFromJointConstraints g.joint_constraints
      let tol : Vec6 := fun i =>
        if (i : ℕ) < 3 then DEFAULT_POS_TOLERANCE else DEFAULT_ROT_TOLERANCE
      let s := { s with tool_goal_pose := pose, tool_goal_tolerance := tol }
      (computeErrorRange s, error_code, true)

/-- The local lambda `compute_scaled_error` (lines 185-193).  The source's
second assignment to `capped_val` reads `val` again and overwrites the first
assignment; the shadowing `let` reproduces that. -/
def compute_scaled_error (val mn mx : Vec6) : Vec6 := fun i =>
  let capped_val := if val i > mx i then mx i else val i
  let capped_val := if val i < mn i then mn i else val i
  (capped_val - mn i) / (mx i - mn i)

/-- `costs(costs.size()-1) = v` (line 213): writes the last entry of a list,
and does nothing on an empty list (the source indexes with `size()-1`, which
is only meaningful for a nonempty vector). -/
def setLast (l : List ℚ) (v : ℚ) : List ℚ :=
  match l with
  | [] => []
  | [_] => [v]
  | x :: xs => x :: setLast xs v

/-- Line 202 composed with lines 196-198: the twist error of a joint
configuration's tool pose against the stored goal pose. -/
def twistErrorAt (ext : Kinematics) (s : GoalState) (q : JointVec) : Vec6 :=
  ext.computeTwist (ext.fkTool q) s.tool_goal_pose

/-- Line 206: the scaled twist error of a call, computed from the last
trajectory column. -/
def scaledTwistError (ext : Kinematics) (s : GoalState) (parameters : Traj) : Vec6 :=
  compute_scaled_error (twistErrorAt ext s (parameters.getLastD []))
    s.min_twist_error s.max_twist_error

/-- Line 207: `scaled_twist_error.head(3).cwiseAbs().maxCoeff()`. -/
def posError (ext : Kinematics) (s : GoalState) (parameters : Traj) : ℚ :=
  max (max |scaledTwistError ext s parameters 0| |scaledTwistError ext s parameters 1|)
    |scaledTwistError ext s parameters 2|

/-- Line 208: `scaled_twist_error.tail(3).cwiseAbs().maxCoeff()`. -/
def orientationError (ext : Kinematics) (s : GoalState) (parameters : Traj) : ℚ :=
  max (max |scaledTwistError ext s parameters 3| |scaledTwistError ext s parameters 4|)
    |scaledTwistError ext s parameters 5|

/-- What a call to `ToolGoalPose::computeCosts` leaves behind: the object's
state, the `parameters` matrix as seen after the call (passed by const
reference; the body never writes it), the `costs` and `validity` output
arguments, and the return value. -/
structure CostResult where
  state : GoalState
  parameters : Traj
  costs : List ℚ
  validity : Bool
  ret : Bool

/-- `ToolGoalPose::computeCosts` (lines 172-219).  `start_timestep`,
`num_timesteps`, `iteration_number` and `rollout_number` are parameters of
the source signature that its body never reads. -/
def computeCosts (ext : Kinematics) (s : GoalState) (parameters : Traj)
    (start_timestep num_timesteps : ℕ) (iteration_number rollout_number : ℤ) :
    CostResult :=
  let last_joint_pose := parameters.getLastD []
  let last_tool_pose := ext.fkTool last_joint_pose
  let tool_twist_error := ext.computeTwist last_tool_pose s.tool_goal_pose
  let scaled_twist_error :=
    compute_scaled_error tool_twist_error s.min_twist_error s.max_twist_error
  let pos_error :=
    max (max |scaled_twist_error 0| |scaled_twist_error 1|) |scaled_twist_error 2|
  let orientation_error :=
    max (max |scaled_twist_error 3| |scaled_twist_error 4|) |scaled_twist_error 5|
  let costs := setLast (List.replicate parameters.length (0 : ℚ))
    (pos_error * s.position_cost_weight + orientation_error * s.orientation_cost_weight)
  let validity := decide (∀ i : Fin 6, tool_twist_error i ≤ s.tool_goal_tolerance i)
  let state := { s with last_joint_pose := last_joint_pose,
                        last_tool_pose := last_tool_pose,
                        tool_twist_error := tool_twist_error }
  { state := state, parameters := parameters, costs := costs,
    validity := validity, ret := true }

/-- Division with an explicit check: `none` when the denominator is zero (the
case double division would turn into a NaN or an infinity). -/
def qdivChecked (a b : ℚ) : Option ℚ := if b = 0 then none else some (a / b)

/-- One component of `compute_scaled_error` with checked division. -/
def scaledEntryChecked (val mn mx : Vec6) (i : Fin 6) : Option ℚ :=
  let capped_val := if val i > mx i then mx i else val i
  let capped_val := if val i < mn i then mn i else val i
  qdivChecked (capped_val - mn i) (mx i - mn i)

/-- `compute_scaled_error` with checked division: `none` exactly when some
component divides by zero. -/
def compute_scaled_errorChecked (val mn mx : Vec6) : Option Vec6 :=
  (scaledEntryChecked val mn mx 0).bind fun a0 =>
  (scaledEntryChecked val mn mx 1).bind fun a1 =>
  (scaledEntryChecked val mn mx 2).bind fun a2 =>
  (scaledEntryChecked val mn mx 3).bind fun a3 =>
  (scaledEntryChecked val mn mx 4).bind fun a4 =>
  (scaledEntryChecked val mn mx 5).map fun a5 => ![a0, a1, a2, a3, a4, a5]

/-- The `costs` output of `computeCosts` recomputed with checked division:
`none` exactly when some scaled-error division divides by zero. -/
def computeCostsChecked (ext : Kinematics) (s : GoalState) (parameters : Traj) :
    Option (List ℚ) :=
  (compute_scaled_errorChecked (twistErrorAt ext s (parameters.getLastD []))
      s.min_twist_error s.max_twist_error).map fun scaled =>
    let pos_error := max (max |scaled 0| |scaled 1|) |scaled 2|
    let orientation_error := max (max |scaled 3| |scaled 4|) |scaled 5|
    setLast (List.replicate parameters.length (0 : ℚ))
      (pos_error * s.position_cost_weight + orientation_error * s.orientation_cost_weight)

/-- A concrete kinematics bundle for witnesses: every map is constant. -/
def exKin : Kinematics where
  validateCartesianConstraints := fun _ => false
  decodeCartesianGoal := fun _ _ => (false, [], fun _ => 0)
  fkFromJointConstraints := fun _ => []
  startToolPose := []
  fkTool := fun _ => []
  computeTwist := fun _ _ => fun _ => 0

/-- A concrete configured state for witnesses: unit weights, tolerance 1,
error range [0, 1] in every component. -/
def exState : GoalState where
  position_cost_weight := 1
  orientation_cost_weight := 1
  cost_weight := 2
  tool_goal_pose := []
  tool_goal_tolerance := fun _ => 1
  min_twist_error := fun _ => 0
  max_twist_error := fun _ => 1
  last_joint_pose := []
  last_tool_pose := []
  tool_twist_error := fun _ => 0

/-- A kinematics bundle whose twist error is 2 in every component. -/
def exKinTwist2 : Kinematics where
  validateCartesianConstraints := fun _ => false
  decodeCartesianGoal := fun _ _ => (false, [], fun _ => 0)
  fkFromJointConstraints := fun _ => []
  startToolPose := []
  fkTool := fun _ => []
  computeTwist := fun _ _ => fun _ => 2

/-- A configured state with tolerance 1/10 and the error range the source
derives from it (lines 163-167): min = 1/10 and max = 1 in every component
(position: 1/10 · POS_MAX_ERROR_RATIO; rotation: 1/10 · ROT_MAX_ERROR_RATIO,
below M_PI), with unit cost weights. -/
def exStateTol : GoalState where
  position_cost_weight := 1
  orientation_cost_weight := 1
  cost_weight := 2
  tool_goal_pose := []
  tool_goal_tolerance := fun _ => 1/10
  min_twist_error := fun _ => 1/10
  max_twist_error := fun _ => 1
  last_joint_pose := []
  last_tool_pose := []
  tool_twist_error := fun _ => 0

theorem setLast_length (l : List ℚ) (v : ℚ) : (setLast l v).length = l.length := by
  induction l with
  | nil => rfl
  | cons x xs ih =>
    cases xs with
    | nil => rfl
    | cons y ys => simpa [setLast] using ih

theorem setLast_replicate (n : ℕ) (v : ℚ) (h : n ≠ 0) :
    setLast (List.replicate n (0 : ℚ)) v = List.replicate (n - 1) (0 : ℚ) ++ [v] := by
  induction n with
  | zero => exact absurd rfl h
  | succ m ih =>
    cases m with
    | zero => rfl
    | succ k =>
      have hstep : setLast (List.replicate (k + 2) (0 : ℚ)) v
          = 0 :: setLast (List.replicate (k + 1) (0 : ℚ)) v := rfl
      rw [hstep, ih (Nat.succ_ne_zero k)]
      simp [List.replicate_succ]

/-- C1 (amended): for every call to `ToolGoalPose::computeCosts`, the returned
cost vector has length equal to the number of columns of the trajectory matrix
(the source resizes `costs` to `parameters.cols()`, not to the requested
`num_timesteps`). -/
theorem computeCosts_costs_length (ext : Kinematics) (s : GoalState)
    (parameters : Traj) (start_timestep num_timesteps : ℕ)
    (iteration_number rollout_number : ℤ) :
    (computeCosts ext s parameters start_timestep num_timesteps
        iteration_number rollout_number).costs.length = parameters.length := by
  simp [computeCosts, setLast_length]

/-- C1 (counterexample): a call on a three-column trajectory requesting
`num_timesteps = 2` returns a cost vector of length 3, not 2. -/
theorem computeCosts_costs_length_cex :
    (computeCosts exKin exState [[0], [0], [0]] 0 2 1 1).costs.length ≠ 2 := by
  decide

/-- C2: the returned cost vector is zero at every timestep except the last,
and the last entry equals the scaled position error times
`position_cost_weight` plus the scaled orientation error times
`orientation_cost_weight`. -/
theorem computeCosts_costs_structure (ext : Kinematics) (s : GoalState)
    (parameters : Traj) (start_timestep num_timesteps : ℕ)
    (iteration_number rollout_number : ℤ) (h : parameters ≠ []) :
    (computeCosts ext s parameters start_timestep num_timesteps
        iteration_number rollout_number).costs =
      List.replicate (parameters.length - 1) (0 : ℚ) ++
        [posError ext s parameters * s.position_cost_weight +
          orientationError ext s parameters * s.orientation_cost_weight] := by
  have hn : parameters.length ≠ 0 := by
    simpa [List.length_eq_zero] using h
  have hcosts : (computeCosts ext s parameters start_timestep num_timesteps
      iteration_number rollout_number).costs
      = setLast (List.replicate parameters.length (0 : ℚ))
          (posError ext s parameters * s.position_cost_weight +
            orientationError ext s parameters * s.orientation_cost_weight) := rfl
  rw [hcosts]
  exact setLast_replicate parameters.length _ hn

/-- C2 (witness): the theorem applied to a concrete two-column trajectory. -/
theorem computeCosts_costs_structure_witness :
    (computeCosts exKin exState [[0], [0]] 0 2 0 0).costs =
      List.replicate 1 (0 : ℚ) ++
        [posError exKin exState [[0], [0]] * exState.position_cost_weight +
          orientationError exKin exState [[0], [0]] * exState.orientation_cost_weight] :=
  computeCosts_costs_structure exKin exState [[0], [0]] 0 2 0 0 (by decide)

/-- C3: with a fixed configured evaluator state, two calls on equal parameters
matrices return identical cost vectors and validity flags regardless of the
`iteration_number` and `rollout_number` arguments: the evaluator is
deterministic and its output does not depend on the iteration/rollout
identifiers. -/
theorem computeCosts_iteration_rollout_independent (ext : Kinematics)
    (s : GoalState) (parameters : Traj) (start_timestep num_timesteps : ℕ)
    (it1 rn1 it2 rn2 : ℤ) :
    computeCosts ext s parameters start_timestep num_timesteps it1 rn1 =
      computeCosts ext s parameters start_timestep num_timesteps it2 rn2 := rfl

/-- C4: the input trajectory matrix `parameters` is unchanged by a call to
`computeCosts`; the body writes only the object's scratch members and the
`costs` and `validity` outputs. -/
theorem computeCosts_parameters_unchanged (ext : Kinematics) (s : GoalState)
    (parameters : Traj) (start_timestep num_timesteps : ℕ)
    (iteration_number rollout_number : ℤ) :
    (computeCosts ext s parameters start_timestep num_timesteps
        iteration_number rollout_number).parameters = parameters := rfl

/-- C5: `computeCosts` returns `true` on every input; missing the goal is
reported only through the `validity` output flag. -/
theorem computeCosts_always_returns_true (ext : Kinematics) (s : GoalState)
    (parameters : Traj) (start_timestep num_timesteps : ℕ)
    (iteration_number rollout_number : ℤ) :
    (computeCosts ext s parameters start_timestep num_timesteps
        iteration_number rollout_number).ret = true := rfl

/-- C6: `configure` returns `false` exactly when reading
`position_cost_weight` or `orientation_cost_weight` raises an
`XmlRpcException`; on success it returns `true` and the stored `cost_weight_`
is the sum of the two stored weights. -/
theorem configure_error_and_weight_sum (config : XmlRpcConfig) (s : GoalState) :
    ((configure config s).2 = false ↔
        (∃ m, config "position_cost_weight" = XmlRpcRead.exn m) ∨
        (∃ m, config "orientation_cost_weight" = XmlRpcRead.exn m)) ∧
    ((configure config s).2 = true →
        (configure config s).1.cost_weight =
          (configure config s).1.position_cost_weight +
            (configure config s).1.orientation_cost_weight) := by
  rcases hp : config "position_cost_weight" with p | m
  · rcases ho : config "orientation_cost_weight" with o | m
    · simp [configure, hp, ho]
    · simp [configure, hp, ho]
  · simp [configure, hp]

theorem compute_scaled_errorChecked_eq_of_lt (val mn mx : Vec6)
    (h : ∀ i : Fin 6, mn i < mx i) :
    compute_scaled_errorChecked val mn mx = some (compute_scaled_error val mn mx) := by
  have he : ∀ i : Fin 6, scaledEntryChecked val mn mx i
      = some (compute_scaled_error val mn mx i) := by
    intro i
    have hz : mx i - mn i ≠ 0 := sub_ne_zero.mpr (ne_of_gt (h i))
    simp [scaledEntryChecked, compute_scaled_error, qdivChecked, hz]
  have hvec : ![compute_scaled_error val mn mx 0, compute_scaled_error val mn mx 1,
      compute_scaled_error val mn mx 2, compute_scaled_error val mn mx 3,
      compute_scaled_error val mn mx 4, compute_scaled_error val mn mx 5]
      = compute_scaled_error val mn mx := by
    funext i
    fin_cases i <;> rfl
  simp [compute_scaled_errorChecked, he, hvec]

/-- C7: when every component of `max_twist_error` strictly exceeds the
corresponding component of `min_twist_error`, the division by `max - min` in
the scaled-error computation never divides by zero: the checked computation
succeeds and every entry of the returned cost vector is its well-defined
value. -/
theorem computeCosts_no_division_by_zero (ext : Kinematics) (s : GoalState)
    (parameters : Traj) (start_timestep num_timesteps : ℕ)
    (iteration_number rollout_number : ℤ)
    (h : ∀ i : Fin 6, s.min_twist_error i < s.max_twist_error i) :
    computeCostsChecked ext s parameters =
      some ((computeCosts ext s parameters start_timestep num_timesteps
        iteration_number rollout_number).costs) := by
  have h1 : compute_scaled_errorChecked (twistErrorAt ext s (parameters.getLastD []))
      s.min_twist_error s.max_twist_error
      = some (compute_scaled_error (twistErrorAt ext s (parameters.getLastD []))
          s.min_twist_error s.max_twist_error) :=
    compute_scaled_errorChecked_eq_of_lt _ _ _ h
  simp only [computeCostsChecked, h1]
  rfl

/-- C7 (witness): the theorem applied at a concrete state whose error range is
[0, 1] in every component. -/
theorem computeCosts_no_division_by_zero_witness :
    computeCostsChecked exKin exState [[0]] =
      some ((computeCosts exKin exState [[0]] 0 1 0 0).costs) :=
  computeCosts_no_division_by_zero exKin exState [[0]] 0 1 0 0 (by decide)

/-- C8 (the code at the failing input): with tolerance 1/10, the derived range
[1/10, 1], unit cost weights and a twist error of 2 in every component, the
claim's precondition `min < max` holds, yet the scaled error is 19/9 > 1 (the
upper cap is lost: the source's second `select` reads `val` and overwrites the
first assignment to `capped_val`) and the final-timestep cost 38/9 exceeds
`position_cost_weight + orientation_cost_weight = 2`. -/
theorem computeCosts_scaled_error_unclipped :
    (∀ i : Fin 6, exStateTol.min_twist_error i < exStateTol.max_twist_error i) ∧
    scaledTwistError exKinTwist2 exStateTol [[0]] 0 = 19/9 ∧
    ¬ (scaledTwistError exKinTwist2 exStateTol [[0]] 0 ≤ 1) ∧
    (computeCosts exKinTwist2 exStateTol [[0]] 0 1 0 0).costs = [38/9] ∧
    ¬ ((computeCosts exKinTwist2 exStateTol [[0]] 0 1 0 0).costs.getLastD 0 ≤
        exStateTol.position_cost_weight + exStateTol.orientation_cost_weight) := by
  have hs : scaledTwistError exKinTwist2 exStateTol [[0]] = fun _ => (19 : ℚ)/9 := by
    funext i
    show compute_scaled_error (fun _ => (2 : ℚ)) (fun _ => (1 : ℚ)/10) (fun _ => (1 : ℚ)) i
      = 19/9
    simp only [compute_scaled_error]
    norm_num
  have hpe : posError exKinTwist2 exStateTol [[0]] = 19/9 := by
    simp only [posError, hs]
    norm_num
  have hoe : orientationError exKinTwist2 exStateTol [[0]] = 19/9 := by
    simp only [orientationError, hs]
    norm_num
  have hcosts : (computeCosts exKinTwist2 exStateTol [[0]] 0 1 0 0).costs
      = [posError exKinTwist2 exStateTol [[0]] * exStateTol.position_cost_weight +
          orientationError exKinTwist2 exStateTol [[0]] *
            exStateTol.orientation_cost_weight] := rfl
  refine ⟨?_, ?_, ?_, ?_, ?_⟩
  · intro i
    show (1 : ℚ)/10 < 1
    norm_num
  · rw [hs]
  · rw [hs]
    norm_num
  · rw [hcosts, hpe, hoe]
    show [(19 : ℚ)/9 * 1 + 19/9 * 1] = [38/9]
    norm_num
  · rw [hcosts, hpe, hoe]
    show ¬ ((19 : ℚ)/9 * 1 + 19/9 * 1 ≤ 1 + 1)
    norm_num

/-- C9: the `validity` output is `true` exactly when every one of the six
components of the twist error between the tool pose at the trajectory's final
timestep and the stored goal pose is at most the corresponding component of
the goal tolerance. -/
theorem computeCosts_validity_iff_within_tolerance (ext : Kinematics)
    (s : GoalState) (parameters : Traj) (start_timestep num_timesteps : ℕ)
    (iteration_number rollout_number : ℤ) :
    (computeCosts ext s parameters start_timestep num_timesteps
        iteration_number rollout_number).validity = true ↔
      ∀ i : Fin 6, twistErrorAt ext s (parameters.getLastD []) i ≤
        s.tool_goal_tolerance i := by
  simp [computeCosts, twistErrorAt]

/-- C10: `setMotionPlanRequest` returns `false` with
`error_code.val = INVALID_GOAL_CONSTRAINTS` when the request's
`goal_constraints` list is empty, and likewise when its first goal constraint
has no valid cartesian constraint and no joint constraints. -/
theorem setMotionPlanRequest_invalid_goal_constraints (ext : Kinematics)
    (s : GoalState) (req : MotionPlanRequest) (ec : MoveItErrorCode) :
    (req.goal_constraints = [] →
        setMotionPlanRequest ext s req ec =
          (s, MoveItErrorCode.INVALID_GOAL_CONSTRAINTS, false)) ∧
    (∀ g rest, req.goal_constraints = g :: rest →
        ext.validateCartesianConstraints g = false →
        g.joint_constraints = [] →
        setMotionPlanRequest ext s req ec =
          (s, MoveItErrorCode.INVALID_GOAL_CONSTRAINTS, false)) := by
  constructor
  · intro h
    simp [setMotionPlanRequest, h]
  · intro g rest h hv hj
    simp [setMotionPlanRequest, h, hv, hj]

end StompMoveit
